import Mathlib

/-!
Verification of the tool-call normalization and validation layer of the
capstone agent repository: the `ToolCall` and `AgentResponse` records and
their validation entry points.  The implementation module
(`api/agents/agents.py`) is not part of the provided sources (only its test
suite is), so the two records and their validators are modelled from the
specification, and checked against the behaviour the test suite pins down.
-/

namespace ToolCallSpec

/-- JSON-compatible values: string, number, boolean, null, nested mapping,
or sequence thereof.  Mappings are ordered association lists with string
keys, matching decoded JSON objects. -/
inductive Json : Type where
  | null : Json
  | bool : Bool → Json
  | num : Int → Json
  | str : String → Json
  | arr : List Json → Json
  | obj : List (String × Json) → Json


/-- Look a key up in a decoded mapping (first occurrence wins; decoded
Python mappings have unique keys). -/
def jlookup (m : List (String × Json)) (k : String) : Option Json :=
  match m with
  | [] => none
  | (k1, v) :: rest => if k1 = k then some v else jlookup rest k

/-- A validated tool call: a tool name and a normalized payload mapping. -/
structure ToolCall where
  name : String
  arguments : List (String × Json)


/-- Modelled from the spec: the §4.1 normalization rule of the missing
`api/agents/agents.py`.  If the input has an `arguments` key with a
non-absent value, that value is the payload and any `parameters` key is
ignored; an explicitly null `arguments` is treated as absent (§9 open
question resolution) and falls through to `parameters`; if `arguments` is
structurally absent, `parameters` supplies the payload; if neither is
present the payload is absent. -/
def getPayload (input : List (String × Json)) : Option Json :=
  match jlookup input "arguments" with
  | some Json.null => jlookup input "parameters"
  | some v => some v
  | none => jlookup input "parameters"

/-- Modelled from the spec: the §4.1 ToolCall validator of the missing
`api/agents/agents.py`.  Requires a `name` key holding a non-empty string
and, after normalization, a payload that is a mapping; otherwise it fails
with a validation error. -/
def ToolCall.validate (input : List (String × Json)) : Except String ToolCall :=
  match jlookup input "name" with
  | none => Except.error "name: field required"
  | some (Json.str s) =>
      if s = "" then Except.error "name: must be a non-empty string"
      else
        match getPayload input with
        | none => Except.error "arguments: field required (arguments or parameters)"
        | some (Json.obj kvs) => Except.ok { name := s, arguments := kvs }
        | some _ => Except.error "arguments: must be a mapping"
  | some _ => Except.error "name: must be a string"

/-- Validate one element of a `tool_calls` sequence: it must be a mapping
satisfying the ToolCall contract. -/
def validateToolCallJson (j : Json) : Except String ToolCall :=
  match j with
  | Json.obj m => ToolCall.validate m
  | _ => Except.error "tool call: must be a mapping"

/-- Validate a `tool_calls` sequence element by element, in order; the
first failing element fails the whole sequence. -/
def validateToolCalls (l : List Json) : Except String (List ToolCall) :=
  match l with
  | [] => Except.ok []
  | j :: rest =>
      match validateToolCallJson j with
      | Except.error e => Except.error e
      | Except.ok tc =>
          match validateToolCalls rest with
          | Except.error e => Except.error e
          | Except.ok tcs => Except.ok (tc :: tcs)

/-- A validated agent turn: narrative answer, opaque reference records,
final-answer flag, and the validated tool calls in input order. -/
structure AgentResponse where
  answer : String
  references : List Json
  final_answer : Bool
  tool_calls : List ToolCall


/-- Modelled from the spec: the §4.2 AgentResponse validator of the missing
`api/agents/agents.py`.  Requires `answer` (string), `references`
(sequence, kept opaquely), `final_answer` (boolean) and `tool_calls`
(sequence of mappings each satisfying the ToolCall contract); any missing
or wrongly typed field, or any failing element, fails the whole input. -/
def AgentResponse.validate (input : List (String × Json)) : Except String AgentResponse :=
  match jlookup input "answer" with
  | some (Json.str a) =>
      match jlookup input "references" with
      | some (Json.arr refs) =>
          match jlookup input "final_answer" with
          | some (Json.bool fa) =>
              match jlookup input "tool_calls" with
              | some (Json.arr tcs) =>
                  match validateToolCalls tcs with
                  | Except.ok l =>
                      Except.ok { answer := a, references := refs,
                                  final_answer := fa, tool_calls := l }
                  | Except.error e => Except.error e
              | some _ => Except.error "tool_calls: must be a sequence"
              | none => Except.error "tool_calls: field required"
          | some _ => Except.error "final_answer: must be a boolean"
          | none => Except.error "final_answer: field required"
      | some _ => Except.error "references: must be a sequence"
      | none => Except.error "references: field required"
  | some _ => Except.error "answer: must be a string"
  | none => Except.error "answer: field required"

/-- Whitespace characters allowed between JSON tokens. -/
def isWs (c : Char) : Bool :=
  c == ' ' || c == '\n' || c == '\t' || c == '\r'

/-- Skip inter-token whitespace. -/
def skipWs (cs : List Char) : List Char :=
  cs.dropWhile isWs

/-- Resolve a single-character JSON string escape. -/
def escChar (c : Char) : Option Char :=
  match c with
  | '"' => some '"'
  | '\\' => some '\\'
  | '/' => some '/'
  | 'n' => some '\n'
  | 't' => some '\t'
  | 'r' => some '\r'
  | _ => none

/-- Parse the body of a JSON string (after the opening quote) up to the
closing quote, resolving escapes; returns the string and the rest. -/
def parseStringBody : List Char → String → Option (String × List Char)
  | [], _ => none
  | c :: rest, acc =>
      if c = '"' then some (acc, rest)
      else if c = '\\' then
        match rest with
        | [] => none
        | e :: rest2 =>
            match escChar e with
            | some d => parseStringBody rest2 (acc.push d)
            | none => none
      else parseStringBody rest (acc.push c)

/-- Accumulate a digit run into a natural number. -/
def digitsToNat (ds : List Char) : Nat :=
  ds.foldl (fun n c => n * 10 + (c.toNat - 48)) 0

/-- Parse a JSON integer (optional minus sign and a digit run). -/
def parseNum (cs : List Char) : Option (Json × List Char) :=
  match cs with
  | '-' :: rest =>
      match rest.span (fun c => c.isDigit) with
      | (ds, rest2) =>
          if ds.isEmpty then none
          else some (Json.num (-(digitsToNat ds : Int)), rest2)
  | _ =>
      match cs.span (fun c => c.isDigit) with
      | (ds, rest2) =>
          if ds.isEmpty then none
          else some (Json.num (digitsToNat ds : Int), rest2)

mutual

/-- Parse one JSON value; `fuel` bounds the recursion depth. -/
def parseVal : Nat → List Char → Option (Json × List Char)
  | 0, _ => none
  | Nat.succ fuel, cs =>
      match skipWs cs with
      | [] => none
      | c :: rest =>
          if c = '"' then
            match parseStringBody rest "" with
            | some (s, rest2) => some (Json.str s, rest2)
            | none => none
          else if c = '\x7b' then
            match skipWs rest with
            | '\x7d' :: rest2 => some (Json.obj [], rest2)
            | _ =>
                match parseMembers fuel rest with
                | some (m, rest2) => some (Json.obj m, rest2)
                | none => none
          else if c = '[' then
            match skipWs rest with
            | ']' :: rest2 => some (Json.arr [], rest2)
            | _ =>
                match parseItems fuel rest with
                | some (l, rest2) => some (Json.arr l, rest2)
                | none => none
          else if c = 't' then
            match rest with
            | 'r' :: 'u' :: 'e' :: rest2 => some (Json.bool true, rest2)
            | _ => none
          else if c = 'f' then
            match rest with
            | 'a' :: 'l' :: 's' :: 'e' :: rest2 => some (Json.bool false, rest2)
            | _ => none
          else if c = 'n' then
            match rest with
            | 'u' :: 'l' :: 'l' :: rest2 => some (Json.null, rest2)
            | _ => none
          else parseNum (c :: rest)

/-- Parse the comma-separated items of a non-empty JSON array, consuming
the closing bracket. -/
def parseItems : Nat → List Char → Option (List Json × List Char)
  | 0, _ => none
  | Nat.succ fuel, cs =>
      match parseVal fuel cs with
      | none => none
      | some (v, rest) =>
          match skipWs rest with
          | ',' :: rest2 =>
              match parseItems fuel rest2 with
              | some (l, rest3) => some (v :: l, rest3)
              | none => none
          | ']' :: rest2 => some ([v], rest2)
          | _ => none

/-- Parse the comma-separated members of a non-empty JSON object,
consuming the closing brace. -/
def parseMembers : Nat → List Char → Option (List (String × Json) × List Char)
  | 0, _ => none
  | Nat.succ fuel, cs =>
      match skipWs cs with
      | '"' :: rest =>
          match parseStringBody rest "" with
          | none => none
          | some (k, rest2) =>
              match skipWs rest2 with
              | ':' :: rest3 =>
                  match parseVal fuel rest3 with
                  | none => none
                  | some (v, rest4) =>
                      match skipWs rest4 with
                      | ',' :: rest5 =>
                          match parseMembers fuel rest5 with
                          | some (m, rest6) => some ((k, v) :: m, rest6)
                          | none => none
                      | '\x7d' :: rest5 => some ([(k, v)], rest5)
                      | _ => none
              | _ => none
      | _ => none

end

/-- Modelled from the spec: the external JSON decoder that the §6 input
boundary delegates to.  Decodes a complete JSON text into a `Json` value
(integers only for numbers; enough for the repository's payloads). -/
def decode (s : String) : Option Json :=
  match parseVal (2 * s.length + 2) s.toList with
  | some (v, rest) => if (skipWs rest).isEmpty then some v else none
  | none => none

/-- Modelled from the spec: the raw-JSON entry point for ToolCall (§6
performs exactly one decode-then-validate pass). -/
def ToolCall.model_validate_json (s : String) : Except String ToolCall :=
  match decode s with
  | some (Json.obj m) => ToolCall.validate m
  | some _ => Except.error "input: must be a mapping"
  | none => Except.error "input: invalid JSON"

/-- Modelled from the spec: the raw-JSON entry point for AgentResponse
(§6 performs exactly one decode-then-validate pass). -/
def AgentResponse.model_validate_json (s : String) : Except String AgentResponse :=
  match decode s with
  | some (Json.obj m) => AgentResponse.validate m
  | some _ => Except.error "input: must be a mapping"
  | none => Except.error "input: invalid JSON"

/-- Serialize a validated ToolCall back to a field mapping. -/
def ToolCall.dump (tc : ToolCall) : List (String × Json) :=
  [("name", Json.str tc.name), ("arguments", Json.obj tc.arguments)]

/-- Serialize a validated AgentResponse back to a field mapping. -/
def AgentResponse.dump (r : AgentResponse) : List (String × Json) :=
  [("answer", Json.str r.answer),
   ("references", Json.arr r.references),
   ("final_answer", Json.bool r.final_answer),
   ("tool_calls", Json.arr (r.tool_calls.map (fun tc => Json.obj tc.dump)))]

/-- The mixed-keys agent turn of the test suite (scenario D): one tool
call uses `arguments`, the other `parameters`. -/
def mixedInput : List (String × Json) :=
  [("answer", Json.str "Looking up items..."),
   ("references", Json.arr []),
   ("final_answer", Json.bool false),
   ("tool_calls", Json.arr
     [Json.obj [("name", Json.str "get_formatted_items_context"),
        ("arguments", Json.obj [("query", Json.str "earphones"),
          ("top_k", Json.num 5)])],
      Json.obj [("name", Json.str "get_formatted_reviews_context"),
        ("parameters", Json.obj [("query", Json.str "headphones"),
          ("item_list", Json.arr [Json.str "B0B67M9C9P"]),
          ("top_k", Json.num 10)])]])]

/-- The record that validating `mixedInput` produces. -/
def mixedResponse : AgentResponse where
  answer := "Looking up items..."
  references := []
  final_answer := false
  tool_calls :=
    [{ name := "get_formatted_items_context",
       arguments := [("query", Json.str "earphones"), ("top_k", Json.num 5)] },
     { name := "get_formatted_reviews_context",
       arguments := [("query", Json.str "headphones"),
         ("item_list", Json.arr [Json.str "B0B67M9C9P"]),
         ("top_k", Json.num 10)] }]

/-- A validated standalone tool call of the test suite. -/
def laptopToolCall : ToolCall where
  name := "get_formatted_items_context"
  arguments := [("query", Json.str "laptop bag")]

/-- The validated no-tool-calls agent turn of the test suite
(scenario E). -/
def laptopResponse : AgentResponse where
  answer := "Here are the details about the laptop bag..."
  references :=
    [Json.obj [("id", Json.str "B07F9MFVKS"),
       ("description", Json.str "EZrelia Laptop Bag")]]
  final_answer := true
  tool_calls := []

/-- Inversion of a successful ToolCall validation: the input had a
non-empty string `name` and a mapping payload matching the record. -/
theorem toolCall_ok_inv (input : List (String × Json)) (tc : ToolCall)
    (h : ToolCall.validate input = Except.ok tc) :
    jlookup input "name" = some (Json.str tc.name) ∧ tc.name ≠ "" ∧
      getPayload input = some (Json.obj tc.arguments) := by
  unfold ToolCall.validate at h
  split at h <;> try exact Except.noConfusion h
  next s heq =>
    split at h <;> try exact Except.noConfusion h
    next hs =>
      split at h <;> try exact Except.noConfusion h
      next kvs heq2 =>
        injection h with h2
        subst h2
        exact ⟨heq, hs, heq2⟩

/-- An input without a payload (after normalization) never validates. -/
theorem toolCall_noPayload (input : List (String × Json))
    (hpay : getPayload input = none) : (ToolCall.validate input).isOk = false := by
  unfold ToolCall.validate
  split
  · rfl
  next s heq =>
    split
    · rfl
    · rw [hpay]
      rfl
  next => rfl

/-- Inversion of a successful validation of one `tool_calls` element list
cell: head and tail both validated. -/
theorem validateToolCalls_ok_cons (j : Json) (rest : List Json)
    (tcs : List ToolCall) (h : validateToolCalls (j :: rest) = Except.ok tcs) :
    ∃ tc tcs2, validateToolCallJson j = Except.ok tc ∧
      validateToolCalls rest = Except.ok tcs2 ∧ tcs = tc :: tcs2 := by
  unfold validateToolCalls at h
  split at h <;> try exact Except.noConfusion h
  next tc heq =>
    split at h <;> try exact Except.noConfusion h
    next tcs2 heq2 =>
      exact ⟨tc, tcs2, heq, heq2, (Except.ok.inj h).symm⟩

/-- A validated `tool_calls` sequence has the input sequence's length. -/
theorem validateToolCalls_length (l : List Json) (tcs : List ToolCall)
    (h : validateToolCalls l = Except.ok tcs) : tcs.length = l.length := by
  induction l generalizing tcs with
  | nil =>
      unfold validateToolCalls at h
      have h2 := Except.ok.inj h
      subst h2
      rfl
  | cons j rest ih =>
      obtain ⟨tc, tcs2, h1, h2, h3⟩ := validateToolCalls_ok_cons j rest tcs h
      subst h3
      simp [ih tcs2 h2]

/-- Each validated `tool_calls` element is the validation of the input
element at the same position. -/
theorem validateToolCalls_get (l : List Json) (tcs : List ToolCall)
    (h : validateToolCalls l = Except.ok tcs) (i : Nat) (hi : i < l.length)
    (hj : i < tcs.length) :
    validateToolCallJson (l.get ⟨i, hi⟩) = Except.ok (tcs.get ⟨i, hj⟩) := by
  induction l generalizing tcs i with
  | nil => exact absurd hi (by simp)
  | cons j rest ih =>
      obtain ⟨tc, tcs2, h1, h2, h3⟩ := validateToolCalls_ok_cons j rest tcs h
      subst h3
      cases i with
      | zero => simpa using h1
      | succ n =>
          have hi2 : n < rest.length := by simpa using hi
          have hj2 : n < tcs2.length := by simpa using hj
          simpa using ih tcs2 h2 n hi2 hj2

/-- If a `tool_calls` sequence validates, every element validates. -/
theorem validateToolCalls_mem_ok (l : List Json) (tcs : List ToolCall)
    (h : validateToolCalls l = Except.ok tcs) :
    ∀ j ∈ l, (validateToolCallJson j).isOk = true := by
  induction l generalizing tcs with
  | nil =>
      intro j hj
      exact absurd hj (by simp)
  | cons j rest ih =>
      obtain ⟨tc, tcs2, h1, h2, h3⟩ := validateToolCalls_ok_cons j rest tcs h
      intro k hk
      rcases List.mem_cons.mp hk with hk | hk
      · rw [hk, h1]
        rfl
      · exact ih tcs2 h2 k hk

/-- A tool-call element that validates yields a non-empty name. -/
theorem validateToolCallJson_ok_name (j : Json) (tc : ToolCall)
    (h : validateToolCallJson j = Except.ok tc) : tc.name ≠ "" := by
  cases j <;> simp only [validateToolCallJson] at h <;>
    try exact Except.noConfusion h
  exact (toolCall_ok_inv _ tc h).2.1

/-- Every record of a validated `tool_calls` sequence has a non-empty
name. -/
theorem validateToolCalls_names (l : List Json) (tcs : List ToolCall)
    (h : validateToolCalls l = Except.ok tcs) :
    ∀ tc ∈ tcs, tc.name ≠ "" := by
  induction l generalizing tcs with
  | nil =>
      unfold validateToolCalls at h
      have h2 := Except.ok.inj h
      subst h2
      intro tc htc
      exact absurd htc (by simp)
  | cons j rest ih =>
      obtain ⟨tc, tcs2, h1, h2, h3⟩ := validateToolCalls_ok_cons j rest tcs h
      subst h3
      intro tc2 htc
      rcases List.mem_cons.mp htc with hk | hk
      · rw [hk]
        exact validateToolCallJson_ok_name j tc h1
      · exact ih tcs2 h2 tc2 hk

/-- Re-validating a serialized ToolCall gives the record back. -/
theorem toolCall_dump_roundtrip (tc : ToolCall) (h : tc.name ≠ "") :
    ToolCall.validate tc.dump = Except.ok tc := by
  simp [ToolCall.validate, ToolCall.dump, getPayload, jlookup, h]

/-- Re-validating a serialized `tool_calls` sequence gives it back. -/
theorem validateToolCalls_dump (tcs : List ToolCall)
    (h : ∀ tc ∈ tcs, tc.name ≠ "") :
    validateToolCalls (tcs.map (fun tc => Json.obj tc.dump)) = Except.ok tcs := by
  induction tcs with
  | nil => rfl
  | cons tc rest ih =>
      have h1 : tc.name ≠ "" := h tc (by simp)
      have h2 : ∀ tc2 ∈ rest, tc2.name ≠ "" := fun tc2 htc => h tc2 (by simp [htc])
      have h3 : validateToolCallJson (Json.obj tc.dump) = Except.ok tc := by
        simpa [validateToolCallJson] using toolCall_dump_roundtrip tc h1
      simp [validateToolCalls, h3, ih h2]

/-- Inversion of a successful AgentResponse validation: all four
top-level fields were present with the right shapes and the `tool_calls`
sequence validated. -/
theorem agentResponse_ok_inv (input : List (String × Json))
    (r : AgentResponse) (h : AgentResponse.validate input = Except.ok r) :
    jlookup input "answer" = some (Json.str r.answer) ∧
    jlookup input "references" = some (Json.arr r.references) ∧
    jlookup input "final_answer" = some (Json.bool r.final_answer) ∧
    ∃ tcs, jlookup input "tool_calls" = some (Json.arr tcs) ∧
      validateToolCalls tcs = Except.ok r.tool_calls := by
  unfold AgentResponse.validate at h
  split at h <;> try exact Except.noConfusion h
  next a heqa =>
    split at h <;> try exact Except.noConfusion h
    next refs heqr =>
      split at h <;> try exact Except.noConfusion h
      next fa heqf =>
        split at h <;> try exact Except.noConfusion h
        next tcs heqt =>
          split at h <;> try exact Except.noConfusion h
          next l heql =>
            have h2 := Except.ok.inj h
            subst h2
            exact ⟨heqa, heqr, heqf, tcs, heqt, heql⟩

/-- Re-validating a serialized AgentResponse gives the record back. -/
theorem agentResponse_dump_roundtrip (r : AgentResponse)
    (hn : ∀ tc ∈ r.tool_calls, tc.name ≠ "") :
    AgentResponse.validate r.dump = Except.ok r := by
  have h1 : validateToolCalls (r.tool_calls.map (fun tc => Json.obj tc.dump))
      = Except.ok r.tool_calls := validateToolCalls_dump r.tool_calls hn
  simp [AgentResponse.validate, AgentResponse.dump, jlookup, h1]

end ToolCallSpec

namespace ToolCallSpec

/-- C1 counterexample: an input that contains a `name` key (holding a
number), an `arguments` key with a mapping value, and a `parameters` key,
on which ToolCall validation nevertheless fails — refuting the claim that
validation succeeds for every such input. -/
theorem C1_counterexample :
    (ToolCall.validate [("name", Json.num 0), ("arguments", Json.obj []),
      ("parameters", Json.obj [])]).isOk = false := rfl

/-- C1 (amended): for every input mapping whose `name` key holds a
non-empty string, whose `arguments` key is present with a mapping value
(including the empty mapping), and whose `parameters` key is present with
any value, ToolCall validation succeeds and the resulting record's
`arguments` equals the input's `arguments` value exactly, the `parameters`
value being ignored entirely. -/
theorem C1_arguments_precedence (input : List (String × Json)) (s : String)
    (a : List (String × Json)) (v : Json)
    (hn : jlookup input "name" = some (Json.str s)) (hs : s ≠ "")
    (ha : jlookup input "arguments" = some (Json.obj a))
    (hp : jlookup input "parameters" = some v) :
    ToolCall.validate input = Except.ok { name := s, arguments := a } := by
  have hpay : getPayload input = some (Json.obj a) := by
    simp [getPayload, ha]
  simp [ToolCall.validate, hn, hs, hpay]

/-- Witness for C1 at the precedence scenario of the test suite. -/
theorem C1_arguments_precedence_witness :
    ToolCall.validate [("name", Json.str "some_tool"),
        ("arguments", Json.obj [("key", Json.str "from_arguments")]),
        ("parameters", Json.obj [("key", Json.str "from_parameters")])] =
      Except.ok { name := "some_tool",
                  arguments := [("key", Json.str "from_arguments")] } :=
  C1_arguments_precedence _ "some_tool" _ (Json.obj [("key", Json.str "from_parameters")])
    rfl (by simp) rfl rfl

/-- C2 counterexample: an input that contains a `name` key (holding null),
no `arguments` key, and a `parameters` key with a mapping value, on which
ToolCall validation nevertheless fails — refuting the claim that
validation succeeds for every such input. -/
theorem C2_counterexample :
    (ToolCall.validate [("name", Json.null),
      ("parameters", Json.obj [])]).isOk = false := rfl

/-- C2 (amended): for every input mapping whose `name` key holds a
non-empty string, with no `arguments` key and a `parameters` key holding a
mapping, ToolCall validation succeeds and the resulting record's
`arguments` equals the input's `parameters` value exactly. -/
theorem C2_parameters_fallback (input : List (String × Json)) (s : String)
    (p : List (String × Json))
    (hn : jlookup input "name" = some (Json.str s)) (hs : s ≠ "")
    (ha : jlookup input "arguments" = none)
    (hp : jlookup input "parameters" = some (Json.obj p)) :
    ToolCall.validate input = Except.ok { name := s, arguments := p } := by
  have hpay : getPayload input = some (Json.obj p) := by
    simp [getPayload, ha, hp]
  simp [ToolCall.validate, hn, hs, hpay]

/-- Witness for C2 at the bug-fix scenario of the test suite. -/
theorem C2_parameters_fallback_witness :
    ToolCall.validate [("name", Json.str "get_formatted_reviews_context"),
        ("parameters", Json.obj [("query", Json.str "dinosaur headphones"),
          ("item_list", Json.arr [Json.str "B0B67M9C9P"]),
          ("top_k", Json.num 10)])] =
      Except.ok { name := "get_formatted_reviews_context",
                  arguments := [("query", Json.str "dinosaur headphones"),
                    ("item_list", Json.arr [Json.str "B0B67M9C9P"]),
                    ("top_k", Json.num 10)] } :=
  C2_parameters_fallback _ "get_formatted_reviews_context" _ rfl (by simp) rfl rfl

/-- C3: for every input mapping in which both the `arguments` key and the
`parameters` key are absent, ToolCall validation fails and no record is
produced. -/
theorem C3_missing_both_fails (input : List (String × Json))
    (ha : jlookup input "arguments" = none)
    (hp : jlookup input "parameters" = none) :
    (ToolCall.validate input).isOk = false :=
  toolCall_noPayload input (by simp [getPayload, ha, hp])

/-- Witness for C3 at the test suite's input with only a `name` key. -/
theorem C3_missing_both_fails_witness :
    (ToolCall.validate [("name", Json.str "some_tool")]).isOk = false :=
  C3_missing_both_fails [("name", Json.str "some_tool")] rfl rfl

/-- C4: ToolCall validation fails whenever the `name` key is absent,
regardless of the payload fields, and likewise whenever `name` is present
but its value is not a string. -/
theorem C4_name_missing_or_nonstring_fails (input : List (String × Json)) :
    (jlookup input "name" = none → (ToolCall.validate input).isOk = false) ∧
    (∀ v, jlookup input "name" = some v → (∀ s, v ≠ Json.str s) →
      (ToolCall.validate input).isOk = false) := by
  constructor
  · intro hn
    unfold ToolCall.validate
    rw [hn]
    rfl
  · intro v hn hv
    unfold ToolCall.validate
    rw [hn]
    cases v with
    | str s => exact absurd rfl (hv s)
    | null => rfl
    | bool b => rfl
    | num n => rfl
    | arr l => rfl
    | obj m => rfl

/-- Witness for C4: missing `name`, and a numeric `name`, both fail. -/
theorem C4_name_missing_or_nonstring_fails_witness :
    (ToolCall.validate [("arguments", Json.obj [("query", Json.str "test")])]).isOk
        = false ∧
    (ToolCall.validate [("name", Json.num 1),
      ("arguments", Json.obj [])]).isOk = false :=
  ⟨(C4_name_missing_or_nonstring_fails
      [("arguments", Json.obj [("query", Json.str "test")])]).1 rfl,
   (C4_name_missing_or_nonstring_fails [("name", Json.num 1),
      ("arguments", Json.obj [])]).2 (Json.num 1) rfl
      (fun s h => Json.noConfusion h)⟩

/-- C9: an explicitly null `arguments` value is treated as absent — with a
mapping-valued `parameters` present the resulting record's `arguments`
equals that `parameters` value, and with `parameters` also absent the
validation fails. -/
theorem C9_null_arguments_as_absent (input : List (String × Json)) :
    (∀ tc p, jlookup input "arguments" = some Json.null →
      jlookup input "parameters" = some (Json.obj p) →
      ToolCall.validate input = Except.ok tc → tc.arguments = p) ∧
    (jlookup input "arguments" = some Json.null →
      jlookup input "parameters" = none →
      (ToolCall.validate input).isOk = false) := by
  constructor
  · intro tc p ha hp h
    have h2 := (toolCall_ok_inv input tc h).2.2
    have h3 : getPayload input = some (Json.obj p) := by simp [getPayload, ha, hp]
    rw [h2] at h3
    exact Json.obj.inj (Option.some.inj h3)
  · intro ha hp
    exact toolCall_noPayload input (by simp [getPayload, ha, hp])

/-- Witness for C9: null `arguments` with `parameters` falls back, and
null `arguments` without `parameters` fails. -/
theorem C9_null_arguments_as_absent_witness :
    ({ name := "t", arguments := [("k", Json.num 1)] } : ToolCall).arguments
        = [("k", Json.num 1)] ∧
    (ToolCall.validate [("name", Json.str "t"),
      ("arguments", Json.null)]).isOk = false :=
  ⟨(C9_null_arguments_as_absent [("name", Json.str "t"), ("arguments", Json.null),
      ("parameters", Json.obj [("k", Json.num 1)])]).1
      { name := "t", arguments := [("k", Json.num 1)] } [("k", Json.num 1)]
      rfl rfl rfl,
   (C9_null_arguments_as_absent [("name", Json.str "t"),
      ("arguments", Json.null)]).2 rfl rfl⟩

/-- C10: a validated ToolCall always carries a non-empty `name`, and an
input whose `name` is the empty string is rejected. -/
theorem C10_name_nonempty (input : List (String × Json)) :
    (∀ tc, ToolCall.validate input = Except.ok tc → tc.name ≠ "") ∧
    (jlookup input "name" = some (Json.str "") →
      (ToolCall.validate input).isOk = false) := by
  constructor
  · intro tc h
    exact (toolCall_ok_inv input tc h).2.1
  · intro hn
    unfold ToolCall.validate
    rw [hn]
    rfl

/-- Witness for C10: a validated name is non-empty, and an empty name is
rejected. -/
theorem C10_name_nonempty_witness :
    ({ name := "x", arguments := [] } : ToolCall).name ≠ "" ∧
    (ToolCall.validate [("name", Json.str ""),
      ("arguments", Json.obj [])]).isOk = false :=
  ⟨(C10_name_nonempty [("name", Json.str "x"), ("arguments", Json.obj [])]).1
      { name := "x", arguments := [] } rfl,
   (C10_name_nonempty [("name", Json.str ""), ("arguments", Json.obj [])]).2 rfl⟩

/-- C5: for every input accepted by AgentResponse validation, the
resulting `tool_calls` has the same length as the input's `tool_calls`
sequence, and the record at each position is the validated (normalized)
form of the input element at that same position. -/
theorem C5_tool_calls_order_preserved (input : List (String × Json))
    (r : AgentResponse) (h : AgentResponse.validate input = Except.ok r) :
    ∃ tcs, jlookup input "tool_calls" = some (Json.arr tcs) ∧
      r.tool_calls.length = tcs.length ∧
      ∀ i (hi : i < tcs.length) (hj : i < r.tool_calls.length),
        validateToolCallJson (tcs.get ⟨i, hi⟩)
          = Except.ok (r.tool_calls.get ⟨i, hj⟩) := by
  obtain ⟨-, -, -, tcs, heqt, heql⟩ := agentResponse_ok_inv input r h
  refine ⟨tcs, heqt, validateToolCalls_length tcs r.tool_calls heql, ?_⟩
  intro i hi hj
  exact validateToolCalls_get tcs r.tool_calls heql i hi hj

/-- Witness for C5 at the mixed-keys scenario of the test suite: one
element uses `arguments`, the other `parameters`; both normalize, order
preserved, length 2. -/
theorem C5_tool_calls_order_preserved_witness :
    ∃ tcs, jlookup mixedInput "tool_calls" = some (Json.arr tcs) ∧
      mixedResponse.tool_calls.length = tcs.length ∧
      ∀ i (hi : i < tcs.length) (hj : i < mixedResponse.tool_calls.length),
        validateToolCallJson (tcs.get ⟨i, hi⟩)
          = Except.ok (mixedResponse.tool_calls.get ⟨i, hj⟩) :=
  C5_tool_calls_order_preserved mixedInput mixedResponse rfl

/-- C6: AgentResponse validation fails whenever a top-level field is
missing or wrongly shaped, or some element of `tool_calls` fails the
ToolCall contract; no record is returned in those cases. -/
theorem C6_invalid_element_or_field_fails (input : List (String × Json))
    (h : (∀ a, jlookup input "answer" ≠ some (Json.str a)) ∨
         (∀ l, jlookup input "references" ≠ some (Json.arr l)) ∨
         (∀ b, jlookup input "final_answer" ≠ some (Json.bool b)) ∨
         (∀ l, jlookup input "tool_calls" ≠ some (Json.arr l)) ∨
         (∃ tcs, jlookup input "tool_calls" = some (Json.arr tcs) ∧
           ∃ j ∈ tcs, (validateToolCallJson j).isOk = false)) :
    (AgentResponse.validate input).isOk = false := by
  cases hok : AgentResponse.validate input with
  | error e => rfl
  | ok r =>
      exfalso
      obtain ⟨heqa, heqr, heqf, tcs, heqt, heql⟩ :=
        agentResponse_ok_inv input r hok
      rcases h with h | h | h | h | ⟨tcs2, heqt2, j, hj, hbad⟩
      · exact h r.answer heqa
      · exact h r.references heqr
      · exact h r.final_answer heqf
      · exact h tcs heqt
      · rw [heqt] at heqt2
        have h5 : tcs = tcs2 := Json.arr.inj (Option.some.inj heqt2)
        subst h5
        have h6 := validateToolCalls_mem_ok tcs r.tool_calls heql j hj
        rw [h6] at hbad
        exact Bool.noConfusion hbad

/-- Witness for C6: one `tool_calls` element without any payload makes
the whole response invalid. -/
theorem C6_invalid_element_or_field_fails_witness :
    (AgentResponse.validate [("answer", Json.str "x"),
      ("references", Json.arr []), ("final_answer", Json.bool false),
      ("tool_calls", Json.arr
        [Json.obj [("name", Json.str "some_tool")]])]).isOk = false :=
  C6_invalid_element_or_field_fails _
    (Or.inr (Or.inr (Or.inr (Or.inr
      ⟨[Json.obj [("name", Json.str "some_tool")]], rfl,
        Json.obj [("name", Json.str "some_tool")], by simp, rfl⟩))))

/-- C7: validating a raw JSON text that decodes to a mapping gives, for
both entry points, exactly the result of validating the decoded mapping
(decode-then-validate equivalence). -/
theorem C7_json_entry_point_equiv (s : String) (m : List (String × Json))
    (h : decode s = some (Json.obj m)) :
    ToolCall.model_validate_json s = ToolCall.validate m ∧
    AgentResponse.model_validate_json s = AgentResponse.validate m := by
  constructor
  · unfold ToolCall.model_validate_json
    rw [h]
  · unfold AgentResponse.model_validate_json
    rw [h]

/-- Witness for C7 at the raw JSON text of the test suite's
`model_validate_json` scenario. -/
theorem C7_json_entry_point_equiv_witness :
    ToolCall.model_validate_json
        "\x7b\"name\": \"get_formatted_reviews_context\", \"parameters\": \x7b\"query\": \"headphones\", \"item_list\": [\"B0B67M9C9P\"], \"top_k\": 10\x7d\x7d"
      = ToolCall.validate [("name", Json.str "get_formatted_reviews_context"),
          ("parameters", Json.obj [("query", Json.str "headphones"),
            ("item_list", Json.arr [Json.str "B0B67M9C9P"]),
            ("top_k", Json.num 10)])] ∧
    AgentResponse.model_validate_json
        "\x7b\"name\": \"get_formatted_reviews_context\", \"parameters\": \x7b\"query\": \"headphones\", \"item_list\": [\"B0B67M9C9P\"], \"top_k\": 10\x7d\x7d"
      = AgentResponse.validate
          [("name", Json.str "get_formatted_reviews_context"),
           ("parameters", Json.obj [("query", Json.str "headphones"),
             ("item_list", Json.arr [Json.str "B0B67M9C9P"]),
             ("top_k", Json.num 10)])] :=
  C7_json_entry_point_equiv _ _ rfl

/-- C8: serializing the field values of any record obtained from a
successful validation and validating that serialization again succeeds
and returns an equal record, for both ToolCall and AgentResponse. -/
theorem C8_revalidation_idempotent (i j : List (String × Json))
    (tc : ToolCall) (r : AgentResponse)
    (h1 : ToolCall.validate i = Except.ok tc)
    (h2 : AgentResponse.validate j = Except.ok r) :
    ToolCall.validate tc.dump = Except.ok tc ∧
    AgentResponse.validate r.dump = Except.ok r := by
  constructor
  · exact toolCall_dump_roundtrip tc (toolCall_ok_inv i tc h1).2.1
  · obtain ⟨-, -, -, tcs, -, heql⟩ := agentResponse_ok_inv j r h2
    exact agentResponse_dump_roundtrip r (validateToolCalls_names tcs r.tool_calls heql)

/-- Witness for C8 at records validated from test-suite inputs. -/
theorem C8_revalidation_idempotent_witness :
    ToolCall.validate laptopToolCall.dump = Except.ok laptopToolCall ∧
    AgentResponse.validate laptopResponse.dump = Except.ok laptopResponse :=
  C8_revalidation_idempotent
    [("name", Json.str "get_formatted_items_context"),
     ("arguments", Json.obj [("query", Json.str "laptop bag")])]
    [("answer", Json.str "Here are the details about the laptop bag..."),
     ("references", Json.arr [Json.obj [("id", Json.str "B07F9MFVKS"),
       ("description", Json.str "EZrelia Laptop Bag")]]),
     ("final_answer", Json.bool true), ("tool_calls", Json.arr [])]
    laptopToolCall laptopResponse rfl rfl

end ToolCallSpec
